import Mathlib

/-!
Formal model of the fatigue-analysis service in `fastapi_fatigue_analysis.py`.

The Python module defines a pure calculation core (`analyze_fatigue`) and a
batch driver (`run_batch_analysis`).  Python floats are modelled as rationals
(`ℚ`), Python `int` as `ℤ`, and Python exceptions as the `Except` monad:
`ValueError`, `ZeroDivisionError` (both division sites) and the `TypeError`
raised when comparing a float with `None` become the constructors of
`FatigueError`.  Evaluation order follows the source line by line: material
lookup, Goodman division, S-N classification, safety-margin division,
verdict comparison.
-/

namespace FatigueAnalysis

/-- Model of the Python method `str.lower()` (the source applies it to ASCII material
identifiers): lower-case every character. -/
def lower (s : String) : String := ⟨s.data.map Char.toLower⟩

/-- Model of the Python `int()` conversion applied to a float: truncation toward
zero. -/
def pyInt (q : ℚ) : ℤ := if 0 ≤ q then ⌊q⌋ else ⌈q⌉

/-- Mirror of the Pydantic model `FatigueInput`.  `safety_factor` is declared
`Optional[float] = 2.0` in the source: an omitted field defaults to `2.0`,
while an explicit JSON `null` arrives as `None` (modelled as `none`). -/
structure FatigueInput where
  stress_amplitude : ℚ
  mean_stress : ℚ
  cycles : ℤ
  material : String
  safety_factor : Option ℚ := some 2
deriving DecidableEq

/-- One entry of the `material_props` dictionary in `analyze_fatigue`. -/
structure MaterialProps where
  endurance_limit : ℚ
  fatigue_strength_coeff : ℚ
deriving DecidableEq

/-- Mirror of the Pydantic model `FatigueResult`. -/
structure FatigueResult where
  cycles_to_failure : ℤ
  safety_margin : ℚ
  is_safe : Bool
  analysis_method : String
deriving DecidableEq

/-- The exceptions `analyze_fatigue` can raise: the explicit
`ValueError` naming the unsupported material, the `ZeroDivisionError` of the
Goodman-correction division (line 42), the `ZeroDivisionError` of the
safety-margin division (line 51), and the `TypeError` of comparing a float
against `None` (line 52). -/
inductive FatigueError where
  | unsupportedMaterial (material : String)
  | divisionSingularity
  | zeroAppliedCycles
  | missingSafetyFactor
deriving DecidableEq

/-- The `str(e)` rendering of each modelled Python exception. -/
def FatigueError.message : FatigueError → String
  | .unsupportedMaterial m => "Material \x27" ++ m ++ "\x27 not supported"
  | .divisionSingularity => "float division by zero"
  | .zeroAppliedCycles => "division by zero"
  | .missingSafetyFactor =>
      "\x27>=\x27 not supported between instances of \x27float\x27 and \x27NoneType\x27"

/-- The fixed `material_props` dictionary of `analyze_fatigue`, in source
order. -/
def material_props : List (String × MaterialProps) :=
  [("steel", { endurance_limit := 200, fatigue_strength_coeff := 900 }),
   ("aluminum", { endurance_limit := 130, fatigue_strength_coeff := 620 })]

/-- Dictionary lookup `material_props[key]`, returning `none` when
`key not in material_props`. -/
def lookupMaterial (key : String) : Option MaterialProps :=
  (material_props.find? (fun p => p.1 == key)).map Prod.snd

/-- The denominator `1 - data.mean_stress / props["fatigue_strength_coeff"]`
of the Goodman correction (line 42). -/
def goodmanDenominator (data : FatigueInput) (props : MaterialProps) : ℚ :=
  1 - data.mean_stress / props.fatigue_strength_coeff

/-- The `equivalent_stress` of line 42 (defined whenever the denominator is
non-zero; the zero-denominator case raises in `analyzeWith`). -/
def equivalentStress (data : FatigueInput) (props : MaterialProps) : ℚ :=
  data.stress_amplitude / goodmanDenominator data props

/-- The `10_000_000  # Infinite life` constant of line 46. -/
def infiniteLifeCycles : ℤ := 10000000

/-- Lines 41-59 of `analyze_fatigue`, after the material has been resolved.
Python raises `ZeroDivisionError` at the division itself, which is modelled by
testing the divisor right before each division; the comparison
`safety_margin >= data.safety_factor` raises `TypeError` when the field is
`None`. -/
def analyzeWith (data : FatigueInput) (props : MaterialProps) :
    Except FatigueError FatigueResult :=
  if goodmanDenominator data props = 0 then
    .error .divisionSingularity
  else
    let equivalent_stress := equivalentStress data props
    let cycles_to_failure : ℤ :=
      if equivalent_stress ≤ props.endurance_limit then infiniteLifeCycles
      else pyInt ((props.fatigue_strength_coeff / equivalent_stress) ^ 3 * 1000)
    if data.cycles = 0 then
      .error .zeroAppliedCycles
    else
      let safety_margin : ℚ := (cycles_to_failure : ℚ) / (data.cycles : ℚ)
      match data.safety_factor with
      | none => .error .missingSafetyFactor
      | some sf =>
          .ok { cycles_to_failure := cycles_to_failure,
                safety_margin := safety_margin,
                is_safe := decide (sf ≤ safety_margin),
                analysis_method := "Simplified S-N Curve with Goodman Correction" }

/-- The function `analyze_fatigue` of the source: resolve
`data.material.lower()` in the table, raising
the `ValueError` that names `data.material` on a miss, then run
the calculation. -/
def analyze_fatigue (data : FatigueInput) : Except FatigueError FatigueResult :=
  match lookupMaterial (lower data.material) with
  | none => .error (.unsupportedMaterial data.material)
  | some props => analyzeWith data props

/-- Loop body of `run_batch_analysis`: `pos` is the 1-based position
(the `i+1` of the `enumerate` loop in the source).  The first exception aborts
the loop with an `HTTPException` whose detail prepends the dataset position to
the message of the exception; already-computed results are discarded. -/
def batchGo (pos : ℕ) : List FatigueInput → Except String (List FatigueResult)
  | [] => .ok []
  | data :: rest =>
    match analyze_fatigue data with
    | .error e => .error ("Error in dataset " ++ toString pos ++ ": " ++ e.message)
    | .ok r =>
      match batchGo (pos + 1) rest with
      | .error msg => .error msg
      | .ok rs => .ok (r :: rs)

/-- The endpoint `run_batch_analysis`: evaluate the inputs in order, returning
all results, or the first error message with its 1-based dataset position. -/
def run_batch_analysis (inputs : List FatigueInput) :
    Except String (List FatigueResult) :=
  batchGo 1 inputs

/-- Boolean test that a single-case evaluation succeeds (reaches the
`return FatigueResult(...)` of line 54 rather than raising). -/
def analyzeOk (data : FatigueInput) : Bool :=
  match analyze_fatigue data with
  | .ok _ => true
  | .error _ => false

/-- Every successful material lookup yields one of the two table rows. -/
theorem lookupMaterial_cases (key : String) (props : MaterialProps)
    (h : lookupMaterial key = some props) :
    props = { endurance_limit := 200, fatigue_strength_coeff := 900 } ∨
    props = { endurance_limit := 130, fatigue_strength_coeff := 620 } := by
  unfold lookupMaterial material_props at h
  cases h1 : (("steel" : String) == key) <;>
    cases h2 : (("aluminum" : String) == key) <;>
      simp [List.find?, h1, h2] at h <;> simp [h]

/-- Both table rows carry strictly positive constants. -/
theorem lookupMaterial_pos (key : String) (props : MaterialProps)
    (h : lookupMaterial key = some props) :
    0 < props.endurance_limit ∧ 0 < props.fatigue_strength_coeff := by
  rcases lookupMaterial_cases key props h with rfl | rfl <;>
    exact ⟨by norm_num, by norm_num⟩

example : lookupMaterial (lower "steel") =
    some { endurance_limit := 200, fatigue_strength_coeff := 900 } := rfl

example : lookupMaterial (lower "STEEL") =
    some { endurance_limit := 200, fatigue_strength_coeff := 900 } := rfl

example : lookupMaterial (lower "titanium") = none := rfl

/-- Unfolding step: a failed lookup raises the `ValueError` immediately. -/
theorem analyze_fatigue_unsupported (data : FatigueInput)
    (h : lookupMaterial (lower data.material) = none) :
    analyze_fatigue data = .error (.unsupportedMaterial data.material) := by
  simp [analyze_fatigue, h]

/-- Unfolding step: a successful lookup hands over to the calculation body. -/
theorem analyze_fatigue_with (data : FatigueInput) (props : MaterialProps)
    (h : lookupMaterial (lower data.material) = some props) :
    analyze_fatigue data = analyzeWith data props := by
  simp [analyze_fatigue, h]

/-- Shape of every successful evaluation: the guards passed and the result
fields are exactly the expressions of the source. -/
theorem analyzeWith_ok (data : FatigueInput) (props : MaterialProps)
    (r : FatigueResult) (h : analyzeWith data props = .ok r) :
    goodmanDenominator data props ≠ 0 ∧ data.cycles ≠ 0 ∧
    ∃ sf, data.safety_factor = some sf ∧
      r.cycles_to_failure =
        (if equivalentStress data props ≤ props.endurance_limit then
          infiniteLifeCycles
        else
          pyInt ((props.fatigue_strength_coeff / equivalentStress data props) ^ 3
            * 1000)) ∧
      r.safety_margin = (r.cycles_to_failure : ℚ) / (data.cycles : ℚ) ∧
      r.is_safe = decide (sf ≤ r.safety_margin) ∧
      r.analysis_method = "Simplified S-N Curve with Goodman Correction" := by
  unfold analyzeWith at h
  split at h
  · exact absurd h (by simp)
  · next hden =>
    split at h
    · exact absurd h (by simp)
    · next hcyc =>
      cases hsf : data.safety_factor with
      | none => rw [hsf] at h; exact absurd h (by simp)
      | some sf =>
        rw [hsf] at h
        simp only [Except.ok.injEq] at h
        subst h
        exact ⟨hden, hcyc, sf, rfl, rfl, rfl, rfl, rfl⟩

/-- Claim C2: whenever the material resolves and the mean stress equals the
fatigue-strength coefficient of the material, the Goodman denominator is zero
and evaluation stops with the division-singularity error (the Python
`ZeroDivisionError` at line 42); no `FatigueResult` is produced. -/
theorem mean_stress_singularity (data : FatigueInput) (props : MaterialProps)
    (hl : lookupMaterial (lower data.material) = some props)
    (hm : data.mean_stress = props.fatigue_strength_coeff) :
    analyze_fatigue data = .error .divisionSingularity := by
  have hc : props.fatigue_strength_coeff ≠ 0 :=
    ne_of_gt (lookupMaterial_pos _ _ hl).2
  have h0 : goodmanDenominator data props = 0 := by
    unfold goodmanDenominator
    rw [hm, div_self hc]
    ring
  rw [analyze_fatigue_with data props hl]
  unfold analyzeWith
  rw [if_pos h0]

/-- Witness for C2: steel with `mean_stress = 900` fails with the
division-singularity error. -/
theorem mean_stress_singularity_witness :
    analyze_fatigue
      { stress_amplitude := 100, mean_stress := 900, cycles := 1000,
        material := "steel", safety_factor := some 2 } =
    .error .divisionSingularity :=
  mean_stress_singularity _
    { endurance_limit := 200, fatigue_strength_coeff := 900 } rfl rfl

/-- Claim C3 (amended): with a supported material, a non-singular mean stress
and `cycles = 0`, evaluation stops with the zero-applied-cycles error
(the Python `ZeroDivisionError` of line 51); no `FatigueResult` is produced. -/
theorem zero_cycles_error (data : FatigueInput) (props : MaterialProps)
    (hl : lookupMaterial (lower data.material) = some props)
    (hm : data.mean_stress ≠ props.fatigue_strength_coeff)
    (hc : data.cycles = 0) :
    analyze_fatigue data = .error .zeroAppliedCycles := by
  have hcoeff : props.fatigue_strength_coeff ≠ 0 :=
    ne_of_gt (lookupMaterial_pos _ _ hl).2
  have h0 : goodmanDenominator data props ≠ 0 := by
    unfold goodmanDenominator
    intro h
    apply hm
    have h1 : data.mean_stress / props.fatigue_strength_coeff = 1 := by
      linarith [sub_eq_zero.mp h]
    calc data.mean_stress
        = data.mean_stress / props.fatigue_strength_coeff
            * props.fatigue_strength_coeff := by
          field_simp
      _ = props.fatigue_strength_coeff := by rw [h1, one_mul]
  rw [analyze_fatigue_with data props hl]
  unfold analyzeWith
  rw [if_neg h0, if_pos hc]

/-- Witness for C3 (amended): steel with `cycles = 0` and zero mean stress
fails with the zero-applied-cycles error. -/
theorem zero_cycles_error_witness :
    analyze_fatigue
      { stress_amplitude := 150, mean_stress := 0, cycles := 0,
        material := "steel", safety_factor := some 2 } =
    .error .zeroAppliedCycles :=
  zero_cycles_error _ { endurance_limit := 200, fatigue_strength_coeff := 900 }
    rfl (by norm_num) rfl

/-- Counterexample for C3 as stated: steel with `cycles = 0` but
`mean_stress = 900` hits the Goodman division first, so the evaluation fails
with the division-singularity error, not the zero-applied-cycles error. -/
theorem zero_cycles_counterexample :
    analyze_fatigue
      { stress_amplitude := 0, mean_stress := 900, cycles := 0,
        material := "steel", safety_factor := some 2 } =
      .error .divisionSingularity ∧
    analyze_fatigue
      { stress_amplitude := 0, mean_stress := 900, cycles := 0,
        material := "steel", safety_factor := some 2 } ≠
      .error .zeroAppliedCycles := by
  have hl : lookupMaterial (lower "steel") =
      some { endurance_limit := 200, fatigue_strength_coeff := 900 } := rfl
  have h1 : analyze_fatigue
      { stress_amplitude := 0, mean_stress := 900, cycles := 0,
        material := "steel", safety_factor := some 2 } =
      .error .divisionSingularity := by
    simp only [analyze_fatigue, hl]
    norm_num [analyzeWith, goodmanDenominator]
  exact ⟨h1, by rw [h1]; simp⟩

/-- Scenario-1 evaluation, used to discharge batch hypotheses on concrete
inputs: steel at 150 MPa amplitude and zero mean stress survives the cap. -/
theorem scenario1_eval : analyze_fatigue
      { stress_amplitude := 150, mean_stress := 0, cycles := 100000,
        material := "steel", safety_factor := some 2 } =
    .ok { cycles_to_failure := 10000000, safety_margin := 100, is_safe := true,
          analysis_method := "Simplified S-N Curve with Goodman Correction" } := by
  have hl : lookupMaterial (lower "steel") =
      some { endurance_limit := 200, fatigue_strength_coeff := 900 } := rfl
  simp only [analyze_fatigue, hl]
  norm_num [analyzeWith, goodmanDenominator, equivalentStress, infiniteLifeCycles]

/-- The loop of `run_batch_analysis` on a list whose prefix succeeds and whose
next element raises: every prefix result is discarded and the loop stops with
the position and message of the failing element. -/
theorem batchGo_append_error (pre : List FatigueInput) (pos : ℕ)
    (data : FatigueInput) (post : List FatigueInput) (e : FatigueError)
    (hpre : ∀ x ∈ pre, analyzeOk x = true)
    (hd : analyze_fatigue data = .error e) :
    batchGo pos (pre ++ data :: post) =
      .error ("Error in dataset " ++ toString (pos + pre.length) ++ ": "
        ++ e.message) := by
  induction pre generalizing pos with
  | nil =>
    simp only [List.nil_append, batchGo, hd, List.length_nil, Nat.add_zero]
  | cons x pre ih =>
    have hx := hpre x (List.mem_cons_self x pre)
    unfold analyzeOk at hx
    cases hax : analyze_fatigue x with
    | error e2 => rw [hax] at hx; simp at hx
    | ok r =>
      have hgo := ih (pos + 1) (fun y hy => hpre y (List.mem_cons_of_mem x hy))
      simp only [List.cons_append, batchGo, hax, List.append_eq, hgo,
        List.length_cons]
      have harith : pos + 1 + pre.length = pos + (pre.length + 1) := by omega
      rw [harith]

/-- Claim C4: a batch whose prefix succeeds and whose next case raises fails
as a whole, with the 1-based position and underlying message of the failing case,
and returns no partial results. -/
theorem run_batch_fail_fast (pre : List FatigueInput) (data : FatigueInput)
    (post : List FatigueInput) (e : FatigueError)
    (hpre : ∀ x ∈ pre, analyzeOk x = true)
    (hd : analyze_fatigue data = .error e) :
    run_batch_analysis (pre ++ data :: post) =
      .error ("Error in dataset " ++ toString (pre.length + 1) ++ ": "
        ++ e.message) := by
  unfold run_batch_analysis
  rw [batchGo_append_error pre 1 data post e hpre hd, Nat.add_comm 1 pre.length]

/-- Witness for C4: in a batch of three with an unsupported material in the
middle, the whole batch fails naming dataset 2. -/
theorem run_batch_fail_fast_witness :
    run_batch_analysis
      [ { stress_amplitude := 150, mean_stress := 0, cycles := 100000,
          material := "steel", safety_factor := some 2 },
        { stress_amplitude := 100, mean_stress := 0, cycles := 1000,
          material := "titanium", safety_factor := some 2 },
        { stress_amplitude := 150, mean_stress := 0, cycles := 100000,
          material := "steel", safety_factor := some 2 } ] =
      .error "Error in dataset 2: Material \x27titanium\x27 not supported" := by
  have h := run_batch_fail_fast
    [ { stress_amplitude := 150, mean_stress := 0, cycles := 100000,
        material := "steel", safety_factor := some 2 } ]
    { stress_amplitude := 100, mean_stress := 0, cycles := 1000,
      material := "titanium", safety_factor := some 2 }
    [ { stress_amplitude := 150, mean_stress := 0, cycles := 100000,
        material := "steel", safety_factor := some 2 } ]
    (.unsupportedMaterial "titanium")
    (by
      intro x hx
      simp only [List.mem_singleton] at hx
      subst hx
      unfold analyzeOk
      rw [scenario1_eval])
    (analyze_fatigue_unsupported _ rfl)
  exact h.trans rfl

/-- The loop of `run_batch_analysis` on an all-succeeding list returns one
result per input, in input order. -/
theorem batchGo_all_ok (inputs : List FatigueInput) (pos : ℕ)
    (h : ∀ x ∈ inputs, analyzeOk x = true) :
    ∃ rs, batchGo pos inputs = .ok rs ∧ rs.length = inputs.length ∧
      ∀ (i : ℕ) (hi : i < inputs.length) (hj : i < rs.length),
        analyze_fatigue (inputs.get ⟨i, hi⟩) = .ok (rs.get ⟨i, hj⟩) := by
  induction inputs generalizing pos with
  | nil => exact ⟨[], rfl, rfl, fun i hi hj => absurd hi (by simp)⟩
  | cons x rest ih =>
    have hx := h x (List.mem_cons_self x rest)
    unfold analyzeOk at hx
    cases hax : analyze_fatigue x with
    | error e => rw [hax] at hx; simp at hx
    | ok r =>
      obtain ⟨rs, hrs, hlen, hget⟩ :=
        ih (pos + 1) (fun y hy => h y (List.mem_cons_of_mem x hy))
      refine ⟨r :: rs, ?_, by simp [hlen], ?_⟩
      · simp only [batchGo, hax, hrs]
      · intro i hi hj
        cases i with
        | zero => exact hax
        | succ n =>
          exact hget n (by simpa using hi) (by simpa using hj)

/-- Claim C5: a batch in which every single-case evaluation succeeds returns
exactly one result per input, and the i-th result is the single-case
evaluation of the i-th input. -/
theorem run_batch_all_ok (inputs : List FatigueInput)
    (h : ∀ x ∈ inputs, analyzeOk x = true) :
    ∃ rs, run_batch_analysis inputs = .ok rs ∧ rs.length = inputs.length ∧
      ∀ (i : ℕ) (hi : i < inputs.length) (hj : i < rs.length),
        analyze_fatigue (inputs.get ⟨i, hi⟩) = .ok (rs.get ⟨i, hj⟩) :=
  batchGo_all_ok inputs 1 h

/-- Witness for C5: a two-element all-succeeding batch. -/
theorem run_batch_all_ok_witness :
    ∃ rs, run_batch_analysis
      [ { stress_amplitude := 150, mean_stress := 0, cycles := 100000,
          material := "steel", safety_factor := some 2 },
        { stress_amplitude := 150, mean_stress := 0, cycles := 100000,
          material := "steel", safety_factor := some 2 } ] = .ok rs ∧
      rs.length = 2 ∧
      ∀ (i : ℕ) (hi : i < 2) (hj : i < rs.length),
        analyze_fatigue
          (List.get
            [ { stress_amplitude := 150, mean_stress := 0, cycles := 100000,
                material := "steel", safety_factor := some 2 },
              { stress_amplitude := 150, mean_stress := 0, cycles := 100000,
                material := "steel", safety_factor := some 2 } ] ⟨i, hi⟩) =
          .ok (rs.get ⟨i, hj⟩) :=
  run_batch_all_ok _
    (by
      intro x hx
      simp at hx
      subst hx
      unfold analyzeOk
      rw [scenario1_eval])

/-- Claim C6: a successful evaluation caps `cycles_to_failure` at 10,000,000
when the equivalent stress is at or below the endurance limit (equality
included), and otherwise takes the integer floor of
`(fatigue_strength_coefficient / equivalent_stress)^3 * 1000` (the Python
`int()` truncates toward zero, which coincides with the floor on this
positive quantity). -/
theorem cycles_to_failure_rule (data : FatigueInput) (props : MaterialProps)
    (r : FatigueResult)
    (hl : lookupMaterial (lower data.material) = some props)
    (hok : analyze_fatigue data = .ok r) :
    (equivalentStress data props ≤ props.endurance_limit →
      r.cycles_to_failure = 10000000) ∧
    (props.endurance_limit < equivalentStress data props →
      r.cycles_to_failure =
        ⌊(props.fatigue_strength_coeff / equivalentStress data props) ^ 3
          * 1000⌋) := by
  rw [analyze_fatigue_with data props hl] at hok
  obtain ⟨hden, hcyc, sf, hsf, hctf, hmargin, hsafe, hmethod⟩ :=
    analyzeWith_ok _ _ _ hok
  constructor
  · intro hle
    rw [hctf, if_pos hle]
    rfl
  · intro hlt
    rw [hctf, if_neg (not_le.mpr hlt)]
    have hel : 0 < props.endurance_limit := (lookupMaterial_pos _ _ hl).1
    have hes : 0 < equivalentStress data props := lt_trans hel hlt
    have hco : 0 < props.fatigue_strength_coeff := (lookupMaterial_pos _ _ hl).2
    have hq : 0 ≤ (props.fatigue_strength_coeff / equivalentStress data props)
        ^ 3 * 1000 := by positivity
    unfold pyInt
    rw [if_pos hq]

/-- Witness for C6, on the aluminum input of scenario 2 (finite-life branch)
and its computed result. -/
theorem cycles_to_failure_rule_witness :
    (equivalentStress
        { stress_amplitude := 150, mean_stress := 0, cycles := 100000,
          material := "steel", safety_factor := some 2 }
        { endurance_limit := 200, fatigue_strength_coeff := 900 } ≤ 200 →
      FatigueResult.cycles_to_failure
        { cycles_to_failure := 10000000, safety_margin := 100, is_safe := true,
          analysis_method := "Simplified S-N Curve with Goodman Correction" } =
        10000000) ∧
    (200 < equivalentStress
        { stress_amplitude := 150, mean_stress := 0, cycles := 100000,
          material := "steel", safety_factor := some 2 }
        { endurance_limit := 200, fatigue_strength_coeff := 900 } →
      FatigueResult.cycles_to_failure
        { cycles_to_failure := 10000000, safety_margin := 100, is_safe := true,
          analysis_method := "Simplified S-N Curve with Goodman Correction" } =
        ⌊((900 : ℚ) / equivalentStress
            { stress_amplitude := 150, mean_stress := 0, cycles := 100000,
              material := "steel", safety_factor := some 2 }
            { endurance_limit := 200, fatigue_strength_coeff := 900 }) ^ 3
          * 1000⌋) :=
  cycles_to_failure_rule _
    { endurance_limit := 200, fatigue_strength_coeff := 900 } _ rfl
    scenario1_eval

/-- Claim C7: every successful evaluation has
`safety_margin = cycles_to_failure / cycles` in exact (rational) division,
`is_safe` true exactly when the safety factor is at most the margin, and a
`FatigueInput` built without the `safety_factor` field carries the default
`2.0`. -/
theorem safety_margin_rule (data : FatigueInput) (r : FatigueResult)
    (hok : analyze_fatigue data = .ok r) :
    r.safety_margin = (r.cycles_to_failure : ℚ) / (data.cycles : ℚ) ∧
    (∀ sf, data.safety_factor = some sf →
      (r.is_safe = true ↔ sf ≤ r.safety_margin)) ∧
    (∀ (a m : ℚ) (c : ℤ) (mat : String),
      ({ stress_amplitude := a, mean_stress := m, cycles := c,
         material := mat } : FatigueInput).safety_factor = some 2) := by
  cases hl : lookupMaterial (lower data.material) with
  | none =>
    rw [analyze_fatigue_unsupported data hl] at hok
    exact absurd hok (by simp)
  | some props =>
    rw [analyze_fatigue_with data props hl] at hok
    obtain ⟨hden, hcyc, sf, hsf, hctf, hmargin, hsafe, hmethod⟩ :=
      analyzeWith_ok _ _ _ hok
    refine ⟨hmargin, ?_, fun a m c mat => rfl⟩
    intro sf2 hsf2
    rw [hsf2] at hsf
    injection hsf with hsf
    subst hsf
    rw [hsafe]
    simp

/-- Witness for C7, on the steel input of scenario 1 and its computed
result. -/
theorem safety_margin_rule_witness :
    FatigueResult.safety_margin
      { cycles_to_failure := 10000000, safety_margin := 100, is_safe := true,
        analysis_method := "Simplified S-N Curve with Goodman Correction" } =
      ((10000000 : ℤ) : ℚ) / ((100000 : ℤ) : ℚ) ∧
    (∀ sf, (some 2 : Option ℚ) = some sf →
      (true = true ↔ sf ≤ (100 : ℚ))) ∧
    (∀ (a m : ℚ) (c : ℤ) (mat : String),
      ({ stress_amplitude := a, mean_stress := m, cycles := c,
         material := mat } : FatigueInput).safety_factor = some 2) :=
  safety_margin_rule _ _ scenario1_eval

/-- Claim C8: material lookup is case-insensitive.  Two identifiers with the
same lower-casing resolve to the same table row, and, when a row exists, two
inputs identical except for letter case in the identifier evaluate to the same
result. -/
theorem material_case_insensitive (a m : ℚ) (c : ℤ) (sf : Option ℚ)
    (s1 s2 : String)
    (h : lower s1 = lower s2)
    (hsupp : (lookupMaterial (lower s1)).isSome = true) :
    lookupMaterial (lower s1) = lookupMaterial (lower s2) ∧
    analyze_fatigue
      { stress_amplitude := a, mean_stress := m, cycles := c,
        material := s1, safety_factor := sf } =
    analyze_fatigue
      { stress_amplitude := a, mean_stress := m, cycles := c,
        material := s2, safety_factor := sf } := by
  refine ⟨by rw [h], ?_⟩
  cases hp : lookupMaterial (lower s2) with
  | none =>
    rw [h, hp] at hsupp
    simp at hsupp
  | some props =>
    have h1 : lookupMaterial (lower s1) = some props := by rw [h, hp]
    rw [analyze_fatigue_with _ props h1, analyze_fatigue_with _ props hp]
    rfl

/-- Witness for C8: the identifiers STEEL and steel give the same table row
and the same evaluation on a fixed input. -/
theorem material_case_insensitive_witness :
    lookupMaterial (lower "STEEL") = lookupMaterial (lower "steel") ∧
    analyze_fatigue
      { stress_amplitude := 150, mean_stress := 0, cycles := 100000,
        material := "STEEL", safety_factor := some 2 } =
    analyze_fatigue
      { stress_amplitude := 150, mean_stress := 0, cycles := 100000,
        material := "steel", safety_factor := some 2 } :=
  material_case_insensitive 150 0 100000 (some 2) "STEEL" "steel" rfl rfl

/-- Claim C9: an identifier whose lower-casing misses the table makes the
evaluation fail with the unsupported-material error, whose message carries the
identifier exactly as the caller supplied it. -/
theorem unsupported_material_message (data : FatigueInput)
    (h : lookupMaterial (lower data.material) = none) :
    analyze_fatigue data = .error (.unsupportedMaterial data.material) ∧
    (FatigueError.unsupportedMaterial data.material).message =
      "Material \x27" ++ data.material ++ "\x27 not supported" :=
  ⟨analyze_fatigue_unsupported data h, rfl⟩

/-- Witness for C9: the identifier titanium is rejected and named verbatim in
the message. -/
theorem unsupported_material_message_witness :
    analyze_fatigue
      { stress_amplitude := 100, mean_stress := 0, cycles := 1000,
        material := "titanium", safety_factor := some 2 } =
      .error (.unsupportedMaterial "titanium") ∧
    (FatigueError.unsupportedMaterial "titanium").message =
      "Material \x27titanium\x27 not supported" :=
  unsupported_material_message
    { stress_amplitude := 100, mean_stress := 0, cycles := 1000,
      material := "titanium", safety_factor := some 2 } rfl

/-- Claim C10: with a positive stress amplitude and a mean stress strictly
above the fatigue-strength coefficient of the material, the Goodman denominator is
negative, so the equivalent stress is negative, lands in the
infinite-life branch, and any produced result carries the 10,000,000 cap. -/
theorem over_mean_stress_infinite_life (data : FatigueInput)
    (props : MaterialProps) (r : FatigueResult)
    (hl : lookupMaterial (lower data.material) = some props)
    (hamp : 0 < data.stress_amplitude)
    (hm : props.fatigue_strength_coeff < data.mean_stress)
    (hok : analyze_fatigue data = .ok r) :
    equivalentStress data props < 0 ∧ r.cycles_to_failure = 10000000 := by
  have hco : 0 < props.fatigue_strength_coeff := (lookupMaterial_pos _ _ hl).2
  have hel : 0 < props.endurance_limit := (lookupMaterial_pos _ _ hl).1
  have hden : goodmanDenominator data props < 0 := by
    unfold goodmanDenominator
    have h1 : 1 < data.mean_stress / props.fatigue_strength_coeff :=
      (one_lt_div hco).mpr hm
    linarith
  have hes : equivalentStress data props < 0 :=
    div_neg_of_pos_of_neg hamp hden
  refine ⟨hes, ?_⟩
  rw [analyze_fatigue_with data props hl] at hok
  obtain ⟨_, _, sf, _, hctf, _, _, _⟩ := analyzeWith_ok _ _ _ hok
  rw [hctf, if_pos (le_of_lt (lt_trans hes hel))]
  rfl

/-- Witness for C10: aluminum with `mean_stress = 700 > 620` and a positive
amplitude produces the infinite-life cap. -/
theorem over_mean_stress_infinite_life_witness :
    equivalentStress
      { stress_amplitude := 10, mean_stress := 700, cycles := 1,
        material := "aluminum", safety_factor := some 2 }
      { endurance_limit := 130, fatigue_strength_coeff := 620 } < 0 ∧
    FatigueResult.cycles_to_failure
      { cycles_to_failure := 10000000, safety_margin := 10000000,
        is_safe := true,
        analysis_method := "Simplified S-N Curve with Goodman Correction" } =
      10000000 :=
  over_mean_stress_infinite_life _
    { endurance_limit := 130, fatigue_strength_coeff := 620 } _ rfl
    (by norm_num) (by norm_num)
    (by
      have hl : lookupMaterial (lower "aluminum") =
          some { endurance_limit := 130, fatigue_strength_coeff := 620 } := rfl
      simp only [analyze_fatigue, hl]
      norm_num [analyzeWith, goodmanDenominator, equivalentStress,
        infiniteLifeCycles])

/-- Scenario-2 evaluation: aluminum at 200 MPa amplitude and 50 MPa mean
stress over 50,000 cycles with the default safety factor.  The equivalent
stress is `200/(1 - 50/620) = 12400/57`, the power law gives
`(57/20)^3 * 1000 = 185193/8 = 23149.125`, and `int()` truncates to 23,149. -/
theorem scenario2_eval :
    analyze_fatigue
      { stress_amplitude := 200, mean_stress := 50, cycles := 50000,
        material := "aluminum" } =
    .ok { cycles_to_failure := 23149, safety_margin := 23149 / 50000,
          is_safe := false,
          analysis_method := "Simplified S-N Curve with Goodman Correction" } := by
  have hl : lookupMaterial (lower "aluminum") =
      some { endurance_limit := 130, fatigue_strength_coeff := 620 } := rfl
  have hpy : pyInt ((185193 : ℚ) / 8) = 23149 := by
    unfold pyInt
    rw [if_pos (by norm_num), Int.floor_eq_iff]
    norm_num
  simp only [analyze_fatigue, hl]
  norm_num [analyzeWith, goodmanDenominator, equivalentStress,
    infiniteLifeCycles, hpy, decide_eq_false_iff_not]

/-- Counterexample for C1 as stated: scenario 2 computes
`cycles_to_failure = 23,149`, not the claimed 23,120 (the exact value is
`185193/8 = 23149.125` before truncation, and floating point lands on the
same integer). -/
theorem scenario2_counterexample :
    Except.map FatigueResult.cycles_to_failure
      (analyze_fatigue
        { stress_amplitude := 200, mean_stress := 50, cycles := 50000,
          material := "aluminum" }) = .ok (23149 : ℤ) ∧
    (23149 : ℤ) ≠ 23120 := by
  constructor
  · rw [scenario2_eval]
    rfl
  · decide

/-- Claim C1 (amended): for aluminum, `stress_amplitude = 200`,
`mean_stress = 50`, `cycles = 50,000` and the default safety factor,
`analyze_fatigue` returns `cycles_to_failure = 23,149`,
`safety_margin = 23149/50000 = 0.46298` and `is_safe = false`. -/
theorem scenario2_result :
    analyze_fatigue
      { stress_amplitude := 200, mean_stress := 50, cycles := 50000,
        material := "aluminum" } =
    .ok { cycles_to_failure := 23149, safety_margin := 23149 / 50000,
          is_safe := false,
          analysis_method := "Simplified S-N Curve with Goodman Correction" } ∧
    (23149 : ℚ) / 50000 = 0.46298 :=
  ⟨scenario2_eval, by norm_num⟩

end FatigueAnalysis
